import Mathlib

/-!
Shallow embedding of `scraper.py` (e-st.lv electricity consumption scraper).

The scraper is a single class `ElectricityScraper` plus a `main` function.
The parts embedded here are the pure computational core the claims speak
about:

* `_format_timestamp` / the `[:-3]` slice at its use site (timestamp
  rendering, epoch milliseconds to a UTC civil-time string);
* `_format_response` (joining the consumption series with the optional
  production series);
* `_get_data_url` and its callers `get_day_data` / `get_month_data`
  (query-parameter construction);
* the credential check at the top of `main`;
* the error branches of `_fetch_remote_data`;
* the browser-session lifecycle (`__enter__` / `__exit__` / `close` /
  `_init_driver`);
* the `--neto` flag of the argument parser.

Python's ambient interpreter state (host timezone and locale) is made
explicit as a `HostEnv` value threaded into the functions that could in
principle consult it; the source passes an explicit UTC timezone to
`datetime.fromtimestamp` and uses only numeric `strftime` codes, which is
why the bodies below do not read the environment.
-/

/-- Ambient interpreter state a Python time-formatting call could depend on:
the host timezone (as an offset in seconds) and the locale name. -/
structure HostEnv where
  hostTzOffsetSeconds : Int
  locale : String

/-- Decimal digits of a natural number zero-padded to width 2, as produced
by the numeric zero-padding strftime codes. All time fields rendered with
width 2 in the source are below 100, where this is exact. -/
def pad2 (n : Nat) : String :=
  ⟨[Nat.digitChar (n / 10 % 10), Nat.digitChar (n % 10)]⟩

/-- Decimal rendering zero-padded to width 4, matching strftime `%Y`. -/
def pad4 (n : Nat) : String :=
  if n < 10 then "000" ++ Nat.repr n
  else if n < 100 then "00" ++ Nat.repr n
  else if n < 1000 then "0" ++ Nat.repr n
  else Nat.repr n

/-- Proleptic Gregorian civil date (year, month, day) of a day count since
1970-01-01, the calendar computation performed by
`datetime.fromtimestamp(..., tz=timezone(timedelta(hours=0)))`. -/
def civilFromDays (z0 : Nat) : Nat × Nat × Nat :=
  let z := z0 + 719468
  let era := z / 146097
  let doe := z % 146097
  let yoe := (doe - doe / 1460 + doe / 36524 - doe / 146097) / 365
  let y := yoe + era * 400
  let doy := doe - (365 * yoe + yoe / 4 - yoe / 100)
  let mp := (5 * doy + 2) / 153
  let d := doy - (153 * mp + 2) / 5 + 1
  let m := if mp < 10 then mp + 3 else mp - 9
  (if m ≤ 2 then y + 1 else y, m, d)

/-- Seconds-since-epoch reinterpreted at a fixed UTC offset, the effect of
`datetime.fromtimestamp(secs, tz=timezone(timedelta(...)))` on the civil
clock reading. The source always passes offset 0. -/
def fromtimestampSecs (tzOffsetSeconds : Int) (secs : Nat) : Nat :=
  ((secs : Int) + tzOffsetSeconds).toNat

/-- Embedding of `ElectricityScraper._format_timestamp`: divide the epoch
millisecond timestamp by 1000, interpret the seconds at the explicit UTC
offset 0 (ignoring the host environment), and render
`%Y-%m-%d %H:%M:%S`. -/
def formatTimestamp (_env : HostEnv) (timestamp : Nat) : String :=
  let secs := fromtimestampSecs 0 (timestamp / 1000)
  let c := civilFromDays (secs / 86400)
  let sod := secs % 86400
  pad4 c.1 ++ "-" ++ pad2 c.2.1 ++ "-" ++ pad2 c.2.2 ++ " " ++
    pad2 (sod / 3600) ++ ":" ++ pad2 (sod % 3600 / 60) ++ ":" ++ pad2 (sod % 60)

/-- Python string slice `s[:-3]`: all code points but the last three. -/
def pyTruncLast3 (s : String) : String :=
  ⟨s.data.take (s.data.length - 3)⟩

/-- The date string stored in each output record:
`self._format_timestamp(timestamp)[:-3]` (line 154, removing `:SS`). -/
def recordDate (env : HostEnv) (timestamp : Nat) : String :=
  pyTruncLast3 (formatTimestamp env timestamp)

/-- Stated from the spec for comparison with `recordDate`: the UTC civil
time of the epoch-millisecond input truncated to minute precision, format
`YYYY-MM-DD HH:MM`. -/
def specUtcMinuteString (timestamp : Nat) : String :=
  let secs := timestamp / 1000
  let c := civilFromDays (secs / 86400)
  let sod := secs % 86400
  pad4 c.1 ++ "-" ++ pad2 c.2.1 ++ "-" ++ pad2 c.2.2 ++ " " ++
    pad2 (sod / 3600) ++ ":" ++ pad2 (sod % 3600 / 60)

/-- One entry of a chart series: `{"timestamp": ..., "value": ...}`. -/
structure SeriesItem where
  timestamp : Nat
  value : Int
deriving DecidableEq, Repr

/-- The part of the chart payload `_format_response` reads:
`values["A+"]["total"]["data"]` and, when the key `"A-"` is present,
`values["A-"]["total"]["data"]`. -/
structure ChartPayload where
  consData : List SeriesItem
  netoData : Option (List SeriesItem)
deriving DecidableEq, Repr

/-- One formatted output record. `production = none` models the record
omitting the `production` key altogether. -/
structure DataPoint where
  date : String
  consumption : Int
  production : Option Int
deriving DecidableEq, Repr

/-- One iteration of the loop `production_map[item["timestamp"]] = item["value"]`:
a Python dict update at the item's key. -/
def dictInsert (m : Nat → Option Int) (it : SeriesItem) : Nat → Option Int :=
  fun k => if k = it.timestamp then some it.value else m k

/-- The dict built by the loop over `response_neto_data`, as its lookup
function (`production_map.get`). -/
def buildProductionMap (items : List SeriesItem) : Nat → Option Int :=
  items.foldl dictInsert (fun _ => none)

/-- Embedding of `ElectricityScraper._format_response`. Mirrors the source:
the `neto` flag is forced to `False` when the `"A-"` series is absent, the
production map is filled only when the flag is on, and one record per
consumption entry is emitted in order, with the `production` key attached
only when the flag is on (`production_map.get(timestamp, 0)`). -/
def formatResponse (env : HostEnv) (responseData : ChartPayload) (neto : Bool := true) :
    List DataPoint :=
  let neto := match responseData.netoData with
    | some _ => neto
    | none => false
  let productionMap : Nat → Option Int :=
    if neto then buildProductionMap (responseData.netoData.getD []) else fun _ => none
  responseData.consData.map (fun item =>
    { date := recordDate env item.timestamp
      consumption := item.value
      production := if neto then some ((productionMap item.timestamp).getD 0) else none })

/-- Stated from the spec for comparison: the value the production series
assigns to a timestamp, defaulting to 0 when the timestamp is absent. -/
def seriesValueAt (items : List SeriesItem) (ts : Nat) : Int :=
  ((items.find? (fun it => it.timestamp == ts)).map SeriesItem.value).getD 0

/-- The period constants of the class. -/
def PERIOD_DAY : String := "D"

/-- Month period constant. -/
def PERIOD_MONTH : String := "M"

/-- Year period constant. -/
def PERIOD_YEAR : String := "Y"

/-- Hourly granularity constant. -/
def GRANULARITY_HOUR : String := "H"

/-- Daily granularity constant. -/
def GRANULARITY_DAY : String := "D"

/-- The current wall-clock date, the components `_get_current_date` reads
off `datetime.now()`. Threaded explicitly since it is ambient state. -/
structure NowDate where
  year : Nat
  month : Nat
  day : Nat
deriving DecidableEq, Repr

/-- Embedding of `_get_current_date`: the current date components rendered
by `strftime` as zero-padded decimal strings (`%Y`, `%m`, `%d`). -/
def getCurrentDate (now : NowDate) : String × String × String :=
  (pad4 now.year, pad2 now.month, pad2 now.day)

/-- Python `x or default` for an optional integer argument followed by the
string conversion performed when the value lands in the URL: `None` and
`0` are falsy and select the default (a `strftime` string); any other
integer is rendered unpadded by `str`. -/
def pyOrNat (x : Option Nat) (default : String) : String :=
  match x with
  | some n => if n = 0 then default else Nat.repr n
  | none => default

/-- Python `x or default` for an optional string: `None` and the empty
string are falsy. -/
def pyOrStr (x : Option String) (default : String) : String :=
  match x with
  | some s => if s = "" then default else s
  | none => default

/-- String conversion `urlencode` applies to a parameter value that may be
`None` (Python renders `str(None)` as `"None"`). -/
def strOfOptParam (x : Option String) : String :=
  match x with
  | some s => s
  | none => "None"

/-- Embedding of the parameter-dict construction in
`ElectricityScraper._get_data_url` (lines 101-124): the three fixed
entries, then the sequential `if period == ...` blocks, preserving dict
insertion order. -/
def getDataParams (objectEic counterNumber : String) (now : NowDate) (period : String)
    (year month day : Option Nat) (granularity : Option String) :
    List (String × String) :=
  let yearS := pyOrNat year (getCurrentDate now).1
  let params := [("objectEic", objectEic), ("counterNumber", counterNumber),
    ("period", period)]
  let params := if period = PERIOD_YEAR then params ++ [("year", yearS)] else params
  let params := if period = PERIOD_MONTH then
      params ++ [("year", yearS), ("month", pyOrNat month (getCurrentDate now).2.1),
        ("granularity", strOfOptParam granularity)]
    else params
  let params := if period = PERIOD_DAY then
      let monthS := pyOrNat month (getCurrentDate now).2.1
      let dayS := pyOrNat day (getCurrentDate now).2.2
      params ++ [("date", dayS ++ "." ++ monthS ++ "." ++ yearS),
        ("granularity", strOfOptParam granularity)]
    else params
  params

/-- Uppercase hex digit, for percent-encoding. -/
def hexDigit (n : Nat) : Char :=
  if n < 10 then Nat.digitChar n
  else if n = 10 then 'A' else if n = 11 then 'B' else if n = 12 then 'C'
  else if n = 13 then 'D' else if n = 14 then 'E' else 'F'

/-- UTF-8 bytes of a code point, as natural numbers. -/
def utf8Bytes (c : Char) : List Nat :=
  let n := c.toNat
  if n < 0x80 then [n]
  else if n < 0x800 then [0xC0 + n / 64, 0x80 + n % 64]
  else if n < 0x10000 then [0xE0 + n / 4096, 0x80 + n / 64 % 64, 0x80 + n % 64]
  else [0xF0 + n / 262144, 0x80 + n / 4096 % 64, 0x80 + n / 64 % 64, 0x80 + n % 64]

/-- `urllib.parse.quote_plus` on one character: space becomes `+`,
alphanumerics and `_.-~` pass through, everything else is percent-encoded
byte by byte. -/
def quotePlusChar (c : Char) : String :=
  if c = ' ' then "+"
  else if c.isAlphanum || c = '_' || c = '.' || c = '-' || c = '~' then String.singleton c
  else String.join ((utf8Bytes c).map (fun b =>
    ⟨['%', hexDigit (b / 16), hexDigit (b % 16)]⟩))

/-- `urllib.parse.quote_plus` on a string. -/
def quotePlus (s : String) : String :=
  String.join (s.data.map quotePlusChar)

/-- `urllib.parse.urlencode`: `k=v` pairs joined by `&`, both sides
quote-plus encoded, in dict insertion order. -/
def pyUrlencode (params : List (String × String)) : String :=
  String.intercalate "&" (params.map (fun kv => quotePlus kv.1 ++ "=" ++ quotePlus kv.2))

/-- The fixed data page URL (`DATA_URL` class constant). -/
def DATA_URL : String :=
  "https://mans.e-st.lv" ++ "/lv/private/paterini-un-norekini/paterinu-grafiki/"

/-- Embedding of `_get_data_url`: base URL plus `?` plus the encoded
parameters. -/
def getDataUrl (objectEic counterNumber : String) (now : NowDate) (period : String)
    (year month day : Option Nat) (granularity : Option String) : String :=
  DATA_URL ++ "?" ++
    pyUrlencode (getDataParams objectEic counterNumber now period year month day granularity)

/-- The query parameters produced along the `get_month_data` path
(lines 290-298): period `M`, no day, and granularity
`granularity or GRANULARITY_DAY`. -/
def getMonthDataParams (objectEic counterNumber : String) (now : NowDate)
    (year month : Option Nat) (granularity : Option String) : List (String × String) :=
  getDataParams objectEic counterNumber now PERIOD_MONTH year month none
    (some (pyOrStr granularity GRANULARITY_DAY))

/-- The query parameters produced along the `get_day_data` path
(lines 279-288): period `D` and granularity fixed to `GRANULARITY_HOUR`. -/
def getDayDataParams (objectEic counterNumber : String) (now : NowDate)
    (year month day : Option Nat) : List (String × String) :=
  getDataParams objectEic counterNumber now PERIOD_DAY year month day
    (some GRANULARITY_HOUR)

/-- Decides whether a string has the shape `DD.MM.YYYY`: exactly ten code
points, digits everywhere except dots at positions 2 and 5. -/
def isDDMMYYYY (s : String) : Bool :=
  match s.data with
  | [d1, d2, p1, m1, m2, p2, y1, y2, y3, y4] =>
      d1.isDigit && d2.isDigit && p1 == '.' && m1.isDigit && m2.isDigit && p2 == '.' &&
        y1.isDigit && y2.isDigit && y3.isDigit && y4.isDigit
  | _ => false

/-- Python truthiness of an `os.getenv` result: `None` and the empty
string are falsy. -/
def isFalsyEnvVar (s : Option String) : Bool :=
  match s with
  | none => true
  | some v => v == ""

/-- The four environment variables `main` reads (each may be unset). -/
structure CredEnv where
  username : Option String
  password : Option String
  objectId : Option String
  meterId : Option String
deriving DecidableEq, Repr

/-- The `missing_vars` list built in `main` (lines 361-369): one append
per credential check, in source order. -/
def missingVars (e : CredEnv) : List String :=
  (if isFalsyEnvVar e.username then ["EST_USERNAME"] else []) ++
  (if isFalsyEnvVar e.password then ["EST_PASSWORD"] else []) ++
  (if isFalsyEnvVar e.objectId then ["EST_OBJECT_ID"] else []) ++
  (if isFalsyEnvVar e.meterId then ["EST_METER_ID"] else [])

/-- Outcome of the startup section of `main`: either the early `return`
after printing the missing-variable message (no scraper is constructed, no
session started), or entry into the `with ElectricityScraper(...)` block
with the four credentials. -/
inductive MainStartup where
  | exitEarly (missing : List String)
  | startScraper (username password objectId meterId : String)
deriving DecidableEq, Repr

/-- Embedding of `main` lines 354-390: build `missing_vars`; if it is
non-empty (Python truthiness of a list), report it and return before the
scraper object or any session exists; otherwise proceed. -/
def mainStartup (e : CredEnv) : MainStartup :=
  let missing := missingVars e
  if missing ≠ [] then MainStartup.exitEarly missing
  else MainStartup.startScraper (e.username.getD "") (e.password.getD "")
    (e.objectId.getD "") (e.meterId.getD "")

/-- Result of the chart-extraction block of `_fetch_remote_data`
(lines 258-277): either the value returned (the data attribute handed to
`json.loads`), or a diagnostic page dump written to the named file followed
by an exception with the given message. -/
inductive FetchResult (α : Type) where
  | ok (value : α)
  | dumpThenRaise (dumpFile message : String)
deriving DecidableEq, Repr

/-- Embedding of the `try` block of `_fetch_remote_data`: if the chart
element appears within the wait, read `data-values` (which is `None` when
the attribute is absent); a truthy value is parsed and returned, a falsy
one (absent or empty) dumps `chart_empty.html` and raises; a timeout dumps
`chart_not_found.html` and raises. JSON parsing is abstracted as the total
function `parse`. -/
def fetchChartData {α : Type} (parse : String → α) (chartAppears : Bool)
    (dataValues : Option String) : FetchResult α :=
  if chartAppears then
    match dataValues with
    | some s =>
        if s ≠ "" then FetchResult.ok (parse s)
        else FetchResult.dumpThenRaise "chart_empty.html" "Chart data not found"
    | none => FetchResult.dumpThenRaise "chart_empty.html" "Chart data not found"
  else FetchResult.dumpThenRaise "chart_not_found.html" "Chart element not found"

/-- Whether a fetch result is the error outcome. -/
def FetchResult.isFailure {α : Type} : FetchResult α → Bool
  | FetchResult.ok _ => false
  | FetchResult.dumpThenRaise _ _ => true

/-- The one piece of mutable scraper state: the browser-driver handle
(`self.driver`), `none` when no session is open; an open session is
identified by a numeral. -/
structure ScraperState where
  driver : Option Nat
deriving DecidableEq, Repr

/-- Observable driver lifecycle events. -/
inductive DriverEvent where
  | createDriver (id : Nat)
  | quitDriver (id : Nat)
deriving DecidableEq, Repr

/-- Embedding of `ElectricityScraper.close` (lines 305-309): quit the
driver and reset the handle when one is open, otherwise do nothing. -/
def scraperClose (s : ScraperState) : ScraperState × List DriverEvent :=
  match s.driver with
  | some i => ({ driver := none }, [DriverEvent.quitDriver i])
  | none => (s, [])

/-- Embedding of `_init_driver` (lines 60-86, abstracted to the handle):
return immediately when a driver already exists, otherwise create a fresh
one and store it. -/
def initDriver (s : ScraperState) (fresh : Nat) : ScraperState × List DriverEvent :=
  match s.driver with
  | some _ => (s, [])
  | none => ({ driver := some fresh }, [DriverEvent.createDriver fresh])

/-- Semantics of the `with ElectricityScraper(...) as scraper:` block in
`main` (lines 390-417): run the body, which may finish normally or raise,
then `__exit__` calls `close` on either path; the exception, if any, keeps
propagating. Returns the outcome, the final state, and the teardown
events. -/
def withScraper {α ε : Type} (s0 : ScraperState)
    (body : ScraperState → Except (ε × ScraperState) (α × ScraperState)) :
    Except ε α × ScraperState × List DriverEvent :=
  match body s0 with
  | Except.ok (a, s1) =>
      let c := scraperClose s1
      (Except.ok a, c.1, c.2)
  | Except.error (e, s1) =>
      let c := scraperClose s1
      (Except.error e, c.1, c.2)

/-- Embedding of the `--neto` option of the argument parser
(line 348): `action='store_true'` with `default=True`. Parsing starts from
the default and each occurrence of the flag stores `True`. -/
def parseNetoFlag (argv : List String) : Bool :=
  argv.foldl (fun acc tok => if tok = "--neto" then true else acc) true

lemma string_data_append (s t : String) : (s ++ t).data = s.data ++ t.data := rfl

lemma string_eq_of_data (s t : String) (h : s.data = t.data) : s = t :=
  congrArg String.mk h

/-- Slicing the last three code points off a string that ends in a colon
followed by a two-character zero-padded field recovers the prefix. -/
lemma pyTruncLast3_colon_pad2 (a : String) (n : Nat) :
    pyTruncLast3 (a ++ ":" ++ pad2 n) = a := by
  apply string_eq_of_data
  show ((a ++ ":" ++ pad2 n).data.take ((a ++ ":" ++ pad2 n).data.length - 3)) = a.data
  have h : (a ++ ":" ++ pad2 n).data =
      a.data ++ [':', Nat.digitChar (n / 10 % 10), Nat.digitChar (n % 10)] := by
    rw [string_data_append, string_data_append, List.append_assoc]
    rfl
  rw [h, List.length_append]
  show (a.data ++ _).take (a.data.length + 3 - 3) = a.data
  rw [Nat.add_sub_cancel, List.take_left]

lemma fromtimestampSecs_zero (n : Nat) : fromtimestampSecs 0 n = n := by
  simp [fromtimestampSecs]

/-- C6: timestamp formatting is a deterministic function of the
epoch-millisecond input alone — host timezone and locale do not affect it
(the source passes an explicit UTC offset and only numeric strftime
codes) — and the record date string equals the UTC civil time of the
timestamp truncated to minute precision, `YYYY-MM-DD HH:MM`. -/
theorem c6_timestamp_utc_deterministic (e1 e2 : HostEnv) (timestamp : Nat) :
    formatTimestamp e1 timestamp = formatTimestamp e2 timestamp ∧
    recordDate e1 timestamp = specUtcMinuteString timestamp := by
  refine ⟨rfl, ?_⟩
  show pyTruncLast3 (formatTimestamp e1 timestamp) = specUtcMinuteString timestamp
  rw [show formatTimestamp e1 timestamp = specUtcMinuteString timestamp ++ ":" ++
      pad2 (timestamp / 1000 % 86400 % 60) from by
    unfold formatTimestamp specUtcMinuteString
    rw [fromtimestampSecs_zero]]
  exact pyTruncLast3_colon_pad2 _ _

/-- C2: when the payload has no production series (`"A-"` key absent),
formatting with inclusion requested (`neto=True`) still omits the
`production` key from every record — the flag is forced off. -/
theorem c2_no_production_series_omits_key (env : HostEnv) (cons : List SeriesItem) :
    (formatResponse env ⟨cons, none⟩ true).map DataPoint.production =
      List.replicate cons.length none := by
  unfold formatResponse
  simp [Function.comp_def]

/-- C10: the `--neto` flag is `store_true` with default `True`, so every
accepted command line parses `neto` as `True`; production inclusion cannot
be disabled from the CLI. -/
theorem c10_neto_always_true (argv : List String) : parseNetoFlag argv = true := by
  unfold parseNetoFlag
  induction argv with
  | nil => rfl
  | cons tok rest ih =>
      rw [List.foldl_cons]
      rw [show (if tok = "--neto" then true else true) = true from by
        rw [ite_self]]
      exact ih

/-- C9: the browser session is acquired lazily on first use
(`_init_driver` is a no-op when a driver exists, creates one otherwise),
and leaving the top-level `with` scope — normally or via an exception —
always quits an open driver and resets the handle, while closing a
never-opened or already-closed session is a no-op. -/
theorem c9_session_lifecycle {α ε : Type} (s0 : ScraperState)
    (body : ScraperState → Except (ε × ScraperState) (α × ScraperState)) :
    (withScraper s0 body).2.1.driver = none ∧
    scraperClose { driver := none } = ({ driver := none }, []) ∧
    (∀ i : Nat, scraperClose { driver := some i } =
      ({ driver := none }, [DriverEvent.quitDriver i])) ∧
    (∀ i fresh : Nat, initDriver { driver := some i } fresh = ({ driver := some i }, [])) ∧
    (∀ fresh : Nat, initDriver { driver := none } fresh =
      ({ driver := some fresh }, [DriverEvent.createDriver fresh])) := by
  refine ⟨?_, rfl, fun i => rfl, fun i fresh => rfl, fun fresh => rfl⟩
  unfold withScraper
  cases h : body s0 with
  | ok p =>
      cases hd : p.2.driver <;> simp [scraperClose, hd]
  | error p =>
      cases hd : p.2.driver <;> simp [scraperClose, hd]

/-- C8 counterexample: the claim's "fails exactly when the chart never
appears or the attribute is present but empty" is falsified when the chart
element appears but the `data-values` attribute is absent
(`get_attribute` returns `None`): the code still dumps and raises, though
neither listed condition holds. -/
theorem c8_counterexample :
    fetchChartData id true (none : Option String) =
      FetchResult.dumpThenRaise "chart_empty.html" "Chart data not found" ∧
    (none : Option String) ≠ some "" := by
  exact ⟨rfl, by decide⟩

/-- C8 amended: the fetch block fails exactly when the chart element never
appears within the timeout or the `data-values` attribute is absent or
empty (Python truthiness conflates absent and empty); every failure dumps
a diagnostic page before raising, and a successful fetch returns the
parsed attribute value. -/
theorem c8_fetch_failure_amended {α : Type} (parse : String → α) (chartAppears : Bool)
    (dataValues : Option String) :
    ((fetchChartData parse chartAppears dataValues).isFailure = true ↔
      chartAppears = false ∨ dataValues = none ∨ dataValues = some "") ∧
    (∀ s : String, dataValues = some s → s ≠ "" → chartAppears = true →
      fetchChartData parse chartAppears dataValues = FetchResult.ok (parse s)) ∧
    (∀ f m : String, fetchChartData parse chartAppears dataValues =
      FetchResult.dumpThenRaise f m →
      (f = "chart_empty.html" ∨ f = "chart_not_found.html")) := by
  refine ⟨?_, ?_, ?_⟩
  · cases chartAppears with
    | false => simp [fetchChartData, FetchResult.isFailure]
    | true =>
        cases dataValues with
        | none => simp [fetchChartData, FetchResult.isFailure]
        | some s =>
            by_cases hs : s = ""
            · subst hs
              simp [fetchChartData, FetchResult.isFailure]
            · simp [fetchChartData, FetchResult.isFailure, hs]
  · intro s hs hne hc
    subst hs
    subst hc
    simp [fetchChartData, hne]
  · intro f m h
    cases chartAppears with
    | false =>
        simp only [fetchChartData, if_neg (by decide : ¬(false = true))] at h
        cases h
        exact Or.inr rfl
    | true =>
        cases dataValues with
        | none =>
            simp only [fetchChartData, if_pos rfl] at h
            cases h
            exact Or.inl rfl
        | some s =>
            by_cases hs : s = ""
            · subst hs
              simp only [fetchChartData, if_pos rfl] at h
              simp at h
              exact Or.inl h.1.symm
            · simp [fetchChartData, hs] at h

/-- Witness for the amended C8 theorem at a concrete input: a present,
non-empty attribute on an appearing chart yields the parsed value. -/
theorem c8_fetch_failure_amended_witness :
    fetchChartData id true (some "x") = FetchResult.ok "x" :=
  (c8_fetch_failure_amended id true (some "x")).2.1 "x" rfl (by decide) rfl

/-- C7: if any of the four required environment credentials is missing
(unset or empty), `main` exits before constructing the scraper or touching
the network, and the reported list names every missing variable, not just
the first. -/
theorem c7_missing_credentials_exit_early (e : CredEnv) (h : missingVars e ≠ []) :
    mainStartup e = MainStartup.exitEarly (missingVars e) ∧
    (("EST_USERNAME" ∈ missingVars e) ↔ isFalsyEnvVar e.username = true) ∧
    (("EST_PASSWORD" ∈ missingVars e) ↔ isFalsyEnvVar e.password = true) ∧
    (("EST_OBJECT_ID" ∈ missingVars e) ↔ isFalsyEnvVar e.objectId = true) ∧
    (("EST_METER_ID" ∈ missingVars e) ↔ isFalsyEnvVar e.meterId = true) := by
  refine ⟨?_, ?_, ?_, ?_, ?_⟩
  · unfold mainStartup
    rw [if_pos h]
  all_goals
    unfold missingVars
    cases hu : isFalsyEnvVar e.username <;>
      cases hp : isFalsyEnvVar e.password <;>
      cases ho : isFalsyEnvVar e.objectId <;>
      cases hm : isFalsyEnvVar e.meterId <;>
      simp

/-- Witness for C7 at a concrete environment with two missing
credentials: both are reported and the run exits early. -/
theorem c7_missing_credentials_exit_early_witness :
    mainStartup ⟨none, some "pw", some "", some "mtr"⟩ =
      MainStartup.exitEarly ["EST_USERNAME", "EST_OBJECT_ID"] :=
  (c7_missing_credentials_exit_early ⟨none, some "pw", some "", some "mtr"⟩
    (by decide)).1.trans (by decide)

lemma foldl_dictInsert_not_mem (l : List SeriesItem) (m : Nat → Option Int) (k : Nat)
    (h : ∀ it ∈ l, it.timestamp ≠ k) :
    l.foldl dictInsert m k = m k := by
  induction l generalizing m with
  | nil => rfl
  | cons x t ih =>
      rw [List.foldl_cons, ih _ (fun it hit => h it (List.mem_cons_of_mem x hit))]
      show (if k = x.timestamp then some x.value else m k) = m k
      rw [if_neg (fun hk => h x (List.mem_cons_self x t) hk.symm)]

lemma foldl_dictInsert_congr (l : List SeriesItem) (m1 m2 : Nat → Option Int) (k : Nat)
    (h : m1 k = m2 k) :
    l.foldl dictInsert m1 k = l.foldl dictInsert m2 k := by
  induction l generalizing m1 m2 with
  | nil => exact h
  | cons x t ih =>
      rw [List.foldl_cons, List.foldl_cons]
      apply ih
      show (if k = x.timestamp then some x.value else m1 k) =
        (if k = x.timestamp then some x.value else m2 k)
      by_cases hk : k = x.timestamp
      · rw [if_pos hk, if_pos hk]
      · rw [if_neg hk, if_neg hk, h]

/-- When the production series assigns each timestamp at most once (its
timestamps are distinct), the dict built by the insertion loop agrees with
direct association lookup in the series. -/
lemma buildProductionMap_eq_find (l : List SeriesItem) (k : Nat)
    (h : (l.map SeriesItem.timestamp).Nodup) :
    buildProductionMap l k = (l.find? (fun it => it.timestamp == k)).map SeriesItem.value := by
  induction l with
  | nil => rfl
  | cons x t ih =>
      rw [List.map_cons, List.nodup_cons] at h
      obtain ⟨hx, ht⟩ := h
      show t.foldl dictInsert (dictInsert (fun _ => none) x) k = _
      by_cases hk : x.timestamp = k
      · rw [foldl_dictInsert_not_mem t _ k ?hnot]
        case hnot =>
          intro it hit hck
          apply hx
          rw [hk, ← hck]
          exact List.mem_map_of_mem SeriesItem.timestamp hit
        show (if k = x.timestamp then some x.value else none) = _
        rw [if_pos hk.symm, List.find?_cons_of_pos _ (by simp [hk])]
        rfl
      · rw [foldl_dictInsert_congr t _ (fun _ => none) k ?h0]
        case h0 =>
          show (if k = x.timestamp then some x.value else none) = none
          rw [if_neg (fun hc => hk hc.symm)]
        rw [List.find?_cons_of_neg _ (by simp [hk])]
        exact ih ht

/-- C1: for a payload with a production series whose timestamps are
distinct (a series is a map from timestamps to values), formatting with
inclusion enabled emits exactly one record per consumption entry, in the
consumption series' order; each record carries the entry's consumption
value and the production series' value at the same timestamp, defaulting
to 0 when that timestamp is absent from the production series. -/
theorem c1_format_response_joins_production (env : HostEnv)
    (cons prod : List SeriesItem)
    (h : (prod.map SeriesItem.timestamp).Nodup) :
    formatResponse env ⟨cons, some prod⟩ true =
      cons.map (fun item =>
        { date := recordDate env item.timestamp
          consumption := item.value
          production := some (seriesValueAt prod item.timestamp) }) := by
  unfold formatResponse
  refine congrArg (fun f => List.map f cons) (funext fun item => ?_)
  show DataPoint.mk _ _ (some ((buildProductionMap prod item.timestamp).getD 0)) =
    DataPoint.mk _ _ (some (seriesValueAt prod item.timestamp))
  rw [buildProductionMap_eq_find prod item.timestamp h]
  rfl

/-- Witness for C1 at the spec's example: consumption entries at T0 and T1
with values 5 and 7 and a production entry 2 at T0 yield production 2 and
the default 0, in consumption order. -/
theorem c1_format_response_joins_production_witness :
    formatResponse ⟨120, "lv_LV"⟩ ⟨[⟨0, 5⟩, ⟨60000, 7⟩], some [⟨0, 2⟩]⟩ true =
      [⟨"1970-01-01 00:00", 5, some 2⟩, ⟨"1970-01-01 00:01", 7, some 0⟩] :=
  (c1_format_response_joins_production ⟨120, "lv_LV"⟩ [⟨0, 5⟩, ⟨60000, 7⟩] [⟨0, 2⟩]
    (by decide)).trans (by decide)

lemma getDataParams_year (objectEic counterNumber : String) (now : NowDate)
    (year month day : Option Nat) (granularity : Option String) :
    getDataParams objectEic counterNumber now PERIOD_YEAR year month day granularity =
      [("objectEic", objectEic), ("counterNumber", counterNumber), ("period", PERIOD_YEAR),
        ("year", pyOrNat year (getCurrentDate now).1)] := by
  simp only [getDataParams]
  rw [if_neg (by decide : ¬PERIOD_YEAR = PERIOD_DAY),
    if_neg (by decide : ¬PERIOD_YEAR = PERIOD_MONTH)]
  simp

lemma getDataParams_month (objectEic counterNumber : String) (now : NowDate)
    (year month day : Option Nat) (granularity : Option String) :
    getDataParams objectEic counterNumber now PERIOD_MONTH year month day granularity =
      [("objectEic", objectEic), ("counterNumber", counterNumber), ("period", PERIOD_MONTH),
        ("year", pyOrNat year (getCurrentDate now).1),
        ("month", pyOrNat month (getCurrentDate now).2.1),
        ("granularity", strOfOptParam granularity)] := by
  simp only [getDataParams]
  rw [if_neg (by decide : ¬PERIOD_MONTH = PERIOD_DAY),
    if_neg (by decide : ¬PERIOD_MONTH = PERIOD_YEAR)]
  simp

lemma getDataParams_day (objectEic counterNumber : String) (now : NowDate)
    (year month day : Option Nat) (granularity : Option String) :
    getDataParams objectEic counterNumber now PERIOD_DAY year month day granularity =
      [("objectEic", objectEic), ("counterNumber", counterNumber), ("period", PERIOD_DAY),
        ("date", pyOrNat day (getCurrentDate now).2.2 ++ "." ++
          pyOrNat month (getCurrentDate now).2.1 ++ "." ++
          pyOrNat year (getCurrentDate now).1),
        ("granularity", strOfOptParam granularity)] := by
  simp only [getDataParams]
  rw [if_neg (by decide : ¬PERIOD_DAY = PERIOD_MONTH),
    if_neg (by decide : ¬PERIOD_DAY = PERIOD_YEAR)]
  simp

lemma pyOrNat_some_of_ne_zero (k : Nat) (d : String) (h : k ≠ 0) :
    pyOrNat (some k) d = Nat.repr k := by
  unfold pyOrNat
  simp [h]

lemma pyOrNat_none (d : String) : pyOrNat none d = d := rfl

/-- C3 counterexample: the claim quantifies over every year value, but the
Python expression `year or current_year` treats 0 as falsy, so a
year-period query for year 0 emits the current year instead of
`year=0`. -/
theorem c3_counterexample :
    getDataParams "obj" "mtr" ⟨2025, 10, 12⟩ PERIOD_YEAR (some 0) none none none =
      [("objectEic", "obj"), ("counterNumber", "mtr"), ("period", "Y"), ("year", "2025")] ∧
    ("year", "0") ∉
      getDataParams "obj" "mtr" ⟨2025, 10, 12⟩ PERIOD_YEAR (some 0) none none none := by
  constructor
  · exact (getDataParams_year "obj" "mtr" ⟨2025, 10, 12⟩ (some 0) none none none).trans
      (by decide)
  · rw [getDataParams_year]
    decide

/-- C3 amended: for every nonzero year value, a year-period query produces
exactly the two fixed identifier parameters, `period=Y` and `year=<year>`,
and no `month`, `day`, `date`, or `granularity` parameter (for year 0,
Python falsiness substitutes the current year). -/
theorem c3_year_url_params (objectEic counterNumber : String) (now : NowDate) (y : Nat)
    (hy : y ≠ 0) (month day : Option Nat) (granularity : Option String) :
    getDataParams objectEic counterNumber now PERIOD_YEAR (some y) month day granularity =
      [("objectEic", objectEic), ("counterNumber", counterNumber), ("period", "Y"),
        ("year", Nat.repr y)] := by
  rw [getDataParams_year, pyOrNat_some_of_ne_zero _ _ hy]
  rfl

/-- Witness for the amended C3 theorem: year 2025 yields exactly the four
parameters with `period=Y&year=2025`. -/
theorem c3_year_url_params_witness :
    getDataParams "obj" "mtr" ⟨2024, 1, 2⟩ PERIOD_YEAR (some 2025) none none none =
      [("objectEic", "obj"), ("counterNumber", "mtr"), ("period", "Y"), ("year", "2025")] :=
  (c3_year_url_params "obj" "mtr" ⟨2024, 1, 2⟩ 2025 (by decide) none none none).trans
    (by decide)

/-- C4: along the `get_month_data` path, a month-period query emits
`year`, `month` — the caller's month (a valid 1-12 value, as the CLI
documents) rendered by `str`, or the current month when absent — and
`granularity`, which defaults to daily `D` when the caller passes none
(the CLI restricts explicit granularity to `D` or `H`). -/
theorem c4_month_url_params (objectEic counterNumber : String) (now : NowDate)
    (year month : Option Nat) (granularity : Option String)
    (hm : month = none ∨ ∃ k, month = some k ∧ 1 ≤ k)
    (hg : granularity = none ∨ granularity = some "D" ∨ granularity = some "H") :
    getMonthDataParams objectEic counterNumber now year month granularity =
      [("objectEic", objectEic), ("counterNumber", counterNumber), ("period", "M"),
        ("year", pyOrNat year (getCurrentDate now).1),
        ("month", month.elim (pad2 now.month) Nat.repr),
        ("granularity", granularity.getD "D")] := by
  unfold getMonthDataParams
  rw [getDataParams_month]
  have hmm : pyOrNat month (getCurrentDate now).2.1 =
      month.elim (pad2 now.month) Nat.repr := by
    rcases hm with hnone | ⟨k, hk, hk1⟩
    · subst hnone
      rfl
    · subst hk
      rw [pyOrNat_some_of_ne_zero _ _ (by omega)]
      rfl
  have hgg : strOfOptParam (some (pyOrStr granularity GRANULARITY_DAY)) =
      granularity.getD "D" := by
    rcases hg with h0 | h0 | h0 <;> subst h0 <;> rfl
  rw [hmm, hgg]
  rfl

/-- Witness for C4: September 2025 with no explicit granularity emits
`year=2025`, `month=9`, `granularity=D`. -/
theorem c4_month_url_params_witness :
    getMonthDataParams "obj" "mtr" ⟨2025, 10, 12⟩ (some 2025) (some 9) none =
      [("objectEic", "obj"), ("counterNumber", "mtr"), ("period", "M"), ("year", "2025"),
        ("month", "9"), ("granularity", "D")] :=
  (c4_month_url_params "obj" "mtr" ⟨2025, 10, 12⟩ (some 2025) (some 9) none
    (Or.inr ⟨9, rfl, by decide⟩) (Or.inl rfl)).trans (by decide)

/-- C5 counterexample: a day-period query for day 5, month 9, year 2025
emits `date=5.9.2025` — the caller's components are rendered by `str`
without zero padding, so the value is not in `DD.MM.YYYY` form. -/
theorem c5_counterexample :
    ("date", "5.9.2025") ∈
      getDayDataParams "obj" "mtr" ⟨2025, 10, 12⟩ (some 2025) (some 9) (some 5) ∧
    isDDMMYYYY "5.9.2025" = false := by
  constructor
  · unfold getDayDataParams
    rw [getDataParams_day]
    decide
  · decide

/-- C5 amended: along the `get_day_data` path, a day-period query emits a
composite `date` parameter `day.month.year` in which caller-supplied
(nonzero) components are rendered by `str` without zero padding while any
absent component defaults to the current date's corresponding `strftime`
component (two-digit day and month, four-digit year), together with a
`granularity` parameter fixed to hourly `H`. -/
theorem c5_day_url_params (objectEic counterNumber : String) (now : NowDate)
    (year month day : Option Nat)
    (hy : year = none ∨ ∃ k, year = some k ∧ 1 ≤ k)
    (hm : month = none ∨ ∃ k, month = some k ∧ 1 ≤ k)
    (hd : day = none ∨ ∃ k, day = some k ∧ 1 ≤ k) :
    getDayDataParams objectEic counterNumber now year month day =
      [("objectEic", objectEic), ("counterNumber", counterNumber), ("period", "D"),
        ("date",
          day.elim (pad2 now.day) Nat.repr ++ "." ++
          month.elim (pad2 now.month) Nat.repr ++ "." ++
          year.elim (pad4 now.year) Nat.repr),
        ("granularity", "H")] ∧
    (pad2 now.day).length = 2 ∧ (pad2 now.month).length = 2 := by
  refine ⟨?_, rfl, rfl⟩
  unfold getDayDataParams
  rw [getDataParams_day]
  have hval : ∀ (x : Option Nat) (dflt : String),
      (x = none ∨ ∃ k, x = some k ∧ 1 ≤ k) →
      pyOrNat x dflt = x.elim dflt Nat.repr := by
    intro x dflt hx
    rcases hx with h0 | ⟨k, hk, hk1⟩
    · subst h0
      rfl
    · subst hk
      rw [pyOrNat_some_of_ne_zero _ _ (by omega)]
      rfl
  rw [hval year _ hy, hval month _ hm, hval day _ hd]
  rfl

/-- Witness for the amended C5 theorem: day absent (falls back to the
current day 12, two-digit), month 9 and year 2025 supplied, giving
`date=12.9.2025` and `granularity=H`. -/
theorem c5_day_url_params_witness :
    getDayDataParams "obj" "mtr" ⟨2025, 10, 12⟩ (some 2025) (some 9) none =
      [("objectEic", "obj"), ("counterNumber", "mtr"), ("period", "D"),
        ("date", "12.9.2025"), ("granularity", "H")] :=
  ((c5_day_url_params "obj" "mtr" ⟨2025, 10, 12⟩ (some 2025) (some 9) none
    (Or.inr ⟨2025, rfl, by decide⟩) (Or.inr ⟨9, rfl, by decide⟩) (Or.inl rfl)).1).trans
    (by decide)
